import Mathlib

/-!
Verification development for the dsi-launcher-tmd-restorer repository.

The repository's visible sources are `arm9/src/main.cpp` (the recovery
workflow), `arm9/src/nand/nandio.h` (the NAND driver interface: constants
and the administrative entry points `nandio_lock_writing`,
`nandio_unlock_writing`, `nandio_force_fat_fix`, `nandio_synchronize_fats`,
`nandio_shutdown`, `nandio_set_fat_sig_fix`) and `main.h`.  The driver
implementation itself is not among the visible sources, so the driver and
cipher are modelled from the specification; the recovery workflow is
embedded directly from `main.cpp`.
-/

namespace Nandio

/-- Constant from `nandio.h` line 12: `#define CRYPT_BUF_LEN 64`. -/
def CRYPT_BUF_LEN : Nat := 64

/-- Constant from `nandio.h` line 13:
`#define NAND_DEVICENAME (('N' << 24) | ('A' << 16) | ('N' << 8) | 'D')`. -/
def NAND_DEVICENAME : Nat :=
  (Char.toNat 'N' <<< 24) ||| (Char.toNat 'A' <<< 16) ||| (Char.toNat 'N' <<< 8) ||| Char.toNat 'D'

/-- Modelled from the spec: the sector size of the medium (spec section 3
"Sector: fixed-size unit", section 8 scenario "512 bytes"); the concrete
driver sources are absent from the repository. -/
def SECTOR_SIZE : Nat := 512

/-- Modelled from the spec: one byte of the per-sector keystream.  The spec
(section 4.1) requires a stream transform "parameterized by sector index so
that identical plaintext in different sectors produces different
ciphertext"; the byte at position `j` mixes byte `j % 4` of the key with
byte `j % 4` of the 32-bit sector index, so the first four keystream bytes
of a sector determine the sector index. -/
def ksByte (key i j : Nat) : Nat :=
  ((i >>> (8 * (j % 4))) % 256) ^^^ ((key >>> (8 * (j % 4))) % 256)

/-- Modelled from the spec: the stream transform applied from stream
position `j` onward.  Each buffer byte is XORed with the keystream byte at
its position. -/
def transformFrom (key i : Nat) (j : Nat) : List Nat → List Nat
  | [] => []
  | b :: rest => (b ^^^ ksByte key i j) :: transformFrom key i (j + 1) rest

/-- Modelled from the spec: `transform(sectorIndex, buffer)` (spec section
4.1), a pure function of (device key, sector index, buffer); the same
operation is used for encryption and decryption (stream-cipher symmetry). -/
def transform (key i : Nat) (p : List Nat) : List Nat :=
  transformFrom key i 0 p

/-- Modelled from the spec: the device-unique key held by the driver
instance (spec section 3 "Cipher State"); its value is device-specific. -/
def deviceKey : Nat := 0x8F2C51A3

/-- Modelled from the spec: total sector count of the modelled medium;
geometry is a fixed compile-time value (spec section 6), the concrete
value being device-specific. -/
def numSectors : Nat := 8

/-- Modelled from the spec: first sector of the primary allocation-table
copy (spec section 3 "Allocation Table Pair": fixed, disjoint ranges). -/
def fatPrimaryStart : Nat := 1

/-- Modelled from the spec: length in sectors of each allocation-table
copy. -/
def fatSectors : Nat := 2

/-- Modelled from the spec: first sector of the backup allocation-table
copy, disjoint from and following the primary copy. -/
def fatBackupStart : Nat := 3

/-- Modelled from the spec: the known-valid value of the corruption
signature marker (spec section 3 "Corruption Signature Marker"). -/
def FAT_SIG_VALID : Nat := 0x55

/-- Modelled from the spec: the two-state write-protection gate (spec
section 3). -/
inductive Gate
  | locked
  | unlocked
  deriving DecidableEq, Repr

/-- Modelled from the spec: the error taxonomy relevant to the claims
(spec section 7). -/
inductive NandError
  | writeProtected
  | rangeError
  | badLength
  deriving DecidableEq, Repr

/-- Modelled from the spec: the driver state — the gate, the ciphered
medium (one list of bytes per sector), and the recorded signature-fix
offset set by `nandio_set_fat_sig_fix`. -/
structure NandState where
  gate : Gate
  medium : List (List Nat)
  sigFixOffset : Nat
  deriving DecidableEq, Repr

/-- Modelled from the spec: decrypting read of `count` sectors starting at
`start`, concatenating the per-sector plaintexts (spec `readSectors`). -/
def readLoop (m : List (List Nat)) : Nat → Nat → List Nat
  | _, 0 => []
  | start, c + 1 =>
      transform deviceKey start (m.getD start []) ++ readLoop m (start + 1) c

/-- Modelled from the spec: `readSectors(startIndex, count)`; fails with a
range error when the request exceeds the device geometry, and does not
consult the write-protection gate. -/
def readSectors (st : NandState) (start count : Nat) : Option (List Nat) :=
  if start + count ≤ numSectors then some (readLoop st.medium start count) else none

/-- Modelled from the spec: the ciphering write loop — each sector-sized
chunk of the data is transformed with its own sector index and stored. -/
def writeLoop : List (List Nat) → Nat → Nat → List Nat → List (List Nat)
  | m, _, 0, _ => m
  | m, start, c + 1, data =>
      writeLoop (m.set start (transform deviceKey start (data.take SECTOR_SIZE)))
        (start + 1) c (data.drop SECTOR_SIZE)

/-- Modelled from the spec: the table-mirroring loop — for each table
sector, the backup copy receives the re-ciphered plaintext of the primary
copy (spec section 4.3). -/
def syncLoop : List (List Nat) → Nat → List (List Nat)
  | m, 0 => m
  | m, j + 1 =>
      syncLoop
        (m.set (fatBackupStart + j)
          (transform deviceKey (fatBackupStart + j)
            (transform deviceKey (fatPrimaryStart + j)
              (m.getD (fatPrimaryStart + j) []))))
        j

/-- Modelled from the spec: `nandio_synchronize_fats` (declared in
`nandio.h` line 27) — re-derives the backup table copy from the primary. -/
def nandio_synchronize_fats (st : NandState) : NandState :=
  { st with medium := syncLoop st.medium fatSectors }

/-- Modelled from the spec: whether a write range `[start, start+count)`
intersects the primary allocation-table region. -/
def touchesFat (start count : Nat) : Bool :=
  decide (start < fatPrimaryStart + fatSectors ∧ fatPrimaryStart < start + count)

/-- Modelled from the spec: `writeSectors(startIndex, count, data)` (spec
section 4.2).  Fails closed while the gate is `locked`; checks geometry
and data length; ciphers and stores each sector; performs the
table-mirroring step when the range touches the table region.  Returns
the error (if any) together with the resulting driver state. -/
def writeSectors (st : NandState) (start count : Nat) (data : List Nat) :
    Option NandError × NandState :=
  if st.gate = Gate.locked then (some NandError.writeProtected, st)
  else if numSectors < start + count then (some NandError.rangeError, st)
  else if data.length ≠ count * SECTOR_SIZE then (some NandError.badLength, st)
  else
    let st1 : NandState := { st with medium := writeLoop st.medium start count data }
    if touchesFat start count then (none, nandio_synchronize_fats st1) else (none, st1)

/-- Modelled from the spec: `nandio_force_fat_fix` (declared in `nandio.h`
line 26) — requires `unlocked`; rewrites the corruption-signature marker at
the recorded offset to its known-valid value and re-synchronizes the
backup copy from the primary. -/
def nandio_force_fat_fix (st : NandState) : Option NandError × NandState :=
  if st.gate = Gate.locked then (some NandError.writeProtected, st)
  else
    let sector := fatPrimaryStart + st.sigFixOffset / SECTOR_SIZE
    let plain := transform deviceKey sector (st.medium.getD sector [])
    let fixed := plain.set (st.sigFixOffset % SECTOR_SIZE) FAT_SIG_VALID
    (none, nandio_synchronize_fats
      { st with medium := st.medium.set sector (transform deviceKey sector fixed) })

/-- Modelled from the spec: `nandio_set_fat_sig_fix` (declared in
`nandio.h` line 19) — records the marker offset; mutates no storage. -/
def nandio_set_fat_sig_fix (st : NandState) (offset : Nat) : NandState :=
  { st with sigFixOffset := offset }

/-- Modelled from the spec: `nandio_lock_writing` (declared in `nandio.h`
line 24) — forces the gate to `locked`; always succeeds. -/
def nandio_lock_writing (st : NandState) : Bool × NandState :=
  (true, { st with gate := Gate.locked })

/-- Modelled from the spec: `nandio_unlock_writing` (declared in
`nandio.h` line 25) — opens the gate. -/
def nandio_unlock_writing (st : NandState) : Bool × NandState :=
  (true, { st with gate := Gate.unlocked })

/-- Modelled from the spec: `nandio_shutdown` (declared in `nandio.h`
line 22) — forces the gate to `locked` and releases the medium. -/
def nandio_shutdown (st : NandState) : Bool × NandState :=
  (true, { st with gate := Gate.locked })

end Nandio

namespace App

/-- Modelled from the spec: SHA-1 computation is an external collaborator
(`swiSHA1Calc` / `calculateFileSha1`, spec section 6); modelled as a
concrete pure digest over byte lists. -/
def sha1M (l : List Nat) : Nat :=
  l.foldl (fun a b => (a * 131 + b + 1) % 1000000007) 0

/-- Observable driver and file-mutation calls issued by `main.cpp`. -/
inductive Event
  | unlockWriting (ok : Bool)
  | lockWriting
  | shutdown
  | truncate (n : Nat)
  | nandWrite (data : List Nat)
  deriving DecidableEq, Repr

/-- How a run of `main` terminates. -/
inductive Outcome
  | earlyAbort
  | batteryExit
  | checkAbort
  | noActionNeeded
  | userAborted
  | writeAbort
  | done
  deriving DecidableEq, Repr

/-- The external environment `main.cpp` runs against: file contents and
the success of each fallible call. -/
structure Env where
  /-- `isDSiMode`, `fatInitDefault` and `fatMountSimple` all succeed
  (main.cpp lines 184-195). -/
  earlyOk1 : Bool
  /-- the user declines to continue on low battery (main.cpp line 199). -/
  batteryDeclined : Bool
  /-- `nitroFSInit` and `getSourceAndTargetTmds` succeed
  (main.cpp lines 203-220). -/
  earlyOk2 : Bool
  /-- digest parsed from the source tmd's `.sha1` file; `none` when the
  file is missing or shorter than 40 characters (main.cpp lines 113-123). -/
  expectedSha : Option Nat
  /-- contents of the target tmd file; `none` when it cannot be opened or
  hashed (main.cpp lines 125-138). -/
  targetTmd : Option (List Nat)
  /-- contents of the source tmd file; `none` when it cannot be opened
  (main.cpp lines 140-143). -/
  sourceTmd : Option (List Nat)
  /-- the user answers the restore prompt with YES (main.cpp line 254). -/
  userConfirms : Bool
  /-- `nandio_unlock_writing` succeeds (main.cpp line 258). -/
  unlockOk : Bool
  /-- `toggleFileReadOnly` on the target tmd succeeds (main.cpp line 262). -/
  toggleTmdOk : Bool
  /-- `toggleFileReadOnly` on the launcher app succeeds (main.cpp line 264). -/
  toggleAppOk : Bool
  /-- `ftruncate` to 520 bytes succeeds (main.cpp line 269). -/
  truncateOk : Bool
  /-- the single `fwrite` of the 520-byte buffer completes
  (main.cpp line 274). -/
  writeOk : Bool
  deriving DecidableEq, Repr

/-- The observable result of a run of `main`: the trace of driver and
file-mutation events, the outcome, and the final target tmd contents. -/
structure Run where
  trace : List Event
  outcome : Outcome
  finalTarget : Option (List Nat)
  deriving DecidableEq, Repr

/-- `checkTmdAndReadBuffer` (main.cpp lines 111-163): loads the expected
digest from the `.sha1` file, hashes the target tmd, reads exactly 520
bytes of the source tmd (aborting on a short read), verifies the source
buffer's digest against the expected digest, and returns the buffer
together with whether the target already matches.  `none` models the
abort paths. -/
def checkTmdAndReadBuffer (env : Env) : Option (List Nat × Bool) :=
  match env.expectedSha with
  | none => none
  | some expected =>
    match env.targetTmd with
    | none => none
    | some target =>
      match env.sourceTmd with
      | none => none
      | some src =>
        if src.length < 520 then none
        else if sha1M (src.take 520) ≠ expected then none
        else some (src.take 520, sha1M target = expected)

/-- `ftruncate(fd, 520)` semantics on the file contents: shorten to 520
bytes or extend with zero bytes. -/
def truncateTo520 (l : List Nat) : List Nat :=
  l.take 520 ++ List.replicate (520 - l.length) 0

/-- The tail of `main` from the call of `checkTmdAndReadBuffer` onward
(main.cpp lines 252-279): confirmation prompt, `nandio_unlock_writing`,
read-only toggles, `ftruncate` to 520, the single `fwrite`, and
`exitWithMessage` — whose `cleanup` (lines 44-57) calls `nandio_shutdown`
on every exit path, including the aborts. -/
def runRestore (env : Env) : Run :=
  match checkTmdAndReadBuffer env with
  | none => ⟨[Event.shutdown], Outcome.checkAbort, env.targetTmd⟩
  | some (_, true) => ⟨[Event.shutdown], Outcome.noActionNeeded, env.targetTmd⟩
  | some (buf, false) =>
    match env.userConfirms with
    | false => ⟨[Event.shutdown], Outcome.userAborted, env.targetTmd⟩
    | true =>
      match env.unlockOk with
      | false =>
        ⟨[Event.unlockWriting false, Event.shutdown], Outcome.writeAbort, env.targetTmd⟩
      | true =>
        match env.toggleTmdOk with
        | false =>
          ⟨[Event.unlockWriting true, Event.shutdown], Outcome.writeAbort, env.targetTmd⟩
        | true =>
          match env.toggleAppOk with
          | false =>
            ⟨[Event.unlockWriting true, Event.shutdown], Outcome.writeAbort, env.targetTmd⟩
          | true =>
            match env.truncateOk with
            | false =>
              ⟨[Event.unlockWriting true, Event.shutdown], Outcome.writeAbort, env.targetTmd⟩
            | true =>
              match env.writeOk with
              | false =>
                ⟨[Event.unlockWriting true, Event.truncate 520, Event.shutdown],
                  Outcome.writeAbort, some (truncateTo520 (env.targetTmd.getD []))⟩
              | true =>
                ⟨[Event.unlockWriting true, Event.truncate 520, Event.nandWrite buf,
                    Event.shutdown], Outcome.done, some buf⟩

/-- `main` (main.cpp lines 165-280): the early aborts (DSi check, FAT
init, NAND mount), the battery decline (a bare `return 0` with no
cleanup, line 200), the later early aborts (nitrofs, title discovery),
then the restore tail. -/
def runMain (env : Env) : Run :=
  match env.earlyOk1 with
  | false => ⟨[Event.shutdown], Outcome.earlyAbort, env.targetTmd⟩
  | true =>
    match env.batteryDeclined with
    | true => ⟨[], Outcome.batteryExit, env.targetTmd⟩
    | false =>
      match env.earlyOk2 with
      | false => ⟨[Event.shutdown], Outcome.earlyAbort, env.targetTmd⟩
      | true => runRestore env

/-- The application flags together with the driver state, for the
frame-effect claim about the interrupt handlers. -/
structure AppState where
  programEnd : Bool
  arm7Exiting : Bool
  charging : Bool
  batteryLevel : Nat
  driver : Nandio.NandState

/-- The `FIFO_USER_01` cross-processor exit-signal handler (main.cpp
lines 170-176): on the magic value `'EXIT'` it sets `programEnd` and
`arm7Exiting`. -/
def fifoUser01Handler (value32 : Nat) (st : AppState) : AppState :=
  if value32 = 0x54495845 then { st with programEnd := true, arm7Exiting := true } else st

/-- The `FIFO_USER_03` battery handler (main.cpp lines 178-181): stores
the low nibble as `batteryLevel` and bit 7 as `charging`. -/
def fifoUser03Handler (value32 : Nat) (st : AppState) : AppState :=
  { st with batteryLevel := value32 &&& 0xF, charging := value32 &&& 128 ≠ 0 }

/-- Test fixture: a 520-byte source tmd. -/
def goodSrc : List Nat := List.replicate 520 1

/-- Test fixture: a 520-byte stale target tmd, different from the
source. -/
def staleTarget : List Nat := List.replicate 520 2

/-- Test fixture: an environment in which every step succeeds and the
target tmd differs from the known-good source. -/
def envHappy : Env :=
  { earlyOk1 := true, batteryDeclined := false, earlyOk2 := true,
    expectedSha := some (sha1M goodSrc), targetTmd := some staleTarget,
    sourceTmd := some goodSrc, userConfirms := true, unlockOk := true,
    toggleTmdOk := true, toggleAppOk := true, truncateOk := true,
    writeOk := true }

/-- Test fixture: an environment whose expected digest matches neither
the source nor the target tmd. -/
def envMismatch : Env :=
  { envHappy with expectedSha := some 0 }

/-- Test fixture: an environment in which the target tmd already equals
the known-good source. -/
def envAlreadyGood : Env :=
  { envHappy with targetTmd := some goodSrc }

end App

namespace Nandio

/-- Test fixture: a locked driver state over an all-zero medium. -/
def testLockedState : NandState :=
  { gate := Gate.locked,
    medium := List.replicate numSectors (List.replicate SECTOR_SIZE 0),
    sigFixOffset := 0 }

/-- Test fixture: the same driver state with the gate unlocked. -/
def testUnlockedState : NandState :=
  { testLockedState with gate := Gate.unlocked }

end Nandio

namespace Nandio

theorem transformFrom_length (key i j : Nat) (p : List Nat) :
    (transformFrom key i j p).length = p.length := by
  induction p generalizing j with
  | nil => rfl
  | cons b rest ih => simp [transformFrom, ih]

theorem transformFrom_involutive (key i j : Nat) (p : List Nat) :
    transformFrom key i j (transformFrom key i j p) = p := by
  induction p generalizing j with
  | nil => rfl
  | cons b rest ih =>
      simp [transformFrom, ih, Nat.xor_assoc, Nat.xor_self, Nat.xor_zero]

/-- The transform is self-inverse on every buffer. -/
theorem transform_involutive (key i : Nat) (p : List Nat) :
    transform key i (transform key i p) = p :=
  transformFrom_involutive key i 0 p

theorem transformFrom_getElem (key i j : Nat) (p : List Nat) (n : Nat)
    (hn : n < p.length) :
    (transformFrom key i j p).get ⟨n, by rw [transformFrom_length]; exact hn⟩ =
      p.get ⟨n, hn⟩ ^^^ ksByte key i (j + n) := by
  induction p generalizing j n with
  | nil => exact absurd hn (by simp)
  | cons b rest ih =>
      cases n with
      | zero => simp [transformFrom]
      | succ m =>
          have hm : m < rest.length := Nat.lt_of_succ_lt_succ hn
          have := ih (j + 1) m hm
          simpa [transformFrom, Nat.add_assoc, Nat.add_comm, Nat.add_left_comm] using this

/-- Four low bytes determine a number below `2^32`. -/
theorem bytes_determine (a b : Nat) (ha : a < 2 ^ 32) (hb : b < 2 ^ 32)
    (h0 : a % 256 = b % 256)
    (h1 : a / 256 % 256 = b / 256 % 256)
    (h2 : a / 65536 % 256 = b / 65536 % 256)
    (h3 : a / 16777216 % 256 = b / 16777216 % 256) : a = b := by
  have ha' : a < 4294967296 := by simpa using ha
  have hb' : b < 4294967296 := by simpa using hb
  omega

/-- If the keystreams of two sector indices below `2^32` agree on the first
four bytes, the indices coincide. -/
theorem ksByte_inj (key i1 i2 : Nat) (h1 : i1 < 2 ^ 32) (h2 : i2 < 2 ^ 32)
    (h : ∀ j, j < 4 → ksByte key i1 j = ksByte key i2 j) : i1 = i2 := by
  have hx : ∀ j, j < 4 → (i1 >>> (8 * j)) % 256 = (i2 >>> (8 * j)) % 256 := by
    intro j hj
    have := h j hj
    unfold ksByte at this
    have hmod : j % 4 = j := Nat.mod_eq_of_lt hj
    rw [hmod] at this
    exact Nat.xor_left_inj.mp this
  have e0 := hx 0 (by norm_num)
  have e1 := hx 1 (by norm_num)
  have e2 := hx 2 (by norm_num)
  have e3 := hx 3 (by norm_num)
  rw [Nat.shiftRight_eq_div_pow, Nat.shiftRight_eq_div_pow] at e0 e1 e2 e3
  norm_num at e0 e1 e2 e3
  exact bytes_determine i1 i2 h1 h2 e0 e1 e2 e3

/-- Distinct sector indices (below `2^32`, the width of the C `sec_t`
sector-index type) give distinct ciphertexts for the same sector-sized
plaintext. -/
theorem transform_tweak_separation (key i1 i2 : Nat) (p : List Nat)
    (hlen : p.length = SECTOR_SIZE)
    (h1 : i1 < 2 ^ 32) (h2 : i2 < 2 ^ 32) (hne : i1 ≠ i2) :
    transform key i1 p ≠ transform key i2 p := by
  intro heq
  apply hne
  apply ksByte_inj key i1 i2 h1 h2
  intro j hj
  have hjp : j < p.length := by
    rw [hlen]; unfold SECTOR_SIZE; omega
  have g1 := transformFrom_getElem key i1 0 p j hjp
  have g2 := transformFrom_getElem key i2 0 p j hjp
  have hh : (transformFrom key i1 0 p).get ⟨j, by rw [transformFrom_length]; exact hjp⟩ =
      (transformFrom key i2 0 p).get ⟨j, by rw [transformFrom_length]; exact hjp⟩ := by
    simp only [transform] at heq
    simp [heq]
  rw [g1, g2] at hh
  simpa using Nat.xor_right_inj.mp hh

/-- Claim C3: the cipher transform is a self-inverse pure function of
(device key, sector index, buffer): for every sector index `i` and every
sector-sized plaintext buffer `p`, `decrypt(i, encrypt(i, p)) = p`, and
for distinct sector indices `i1 ≠ i2` (within the 32-bit sector-index
type), `encrypt(i1, p) ≠ encrypt(i2, p)` for the same `p`. -/
theorem cipher_roundtrip_and_tweak_separation (key i i1 i2 : Nat) (p : List Nat)
    (hlen : p.length = SECTOR_SIZE)
    (h1 : i1 < 2 ^ 32) (h2 : i2 < 2 ^ 32) (hne : i1 ≠ i2) :
    transform key i (transform key i p) = p ∧
      transform key i1 p ≠ transform key i2 p :=
  ⟨transform_involutive key i p, transform_tweak_separation key i1 i2 p hlen h1 h2 hne⟩

/-- Witness for claim C3 at key 7, indices 0, 1, 2 and the all-zero
sector. -/
theorem cipher_roundtrip_and_tweak_separation_witness :
    transform 7 0 (transform 7 0 (List.replicate 512 0)) = List.replicate 512 0 ∧
      transform 7 1 (List.replicate 512 0) ≠ transform 7 2 (List.replicate 512 0) :=
  cipher_roundtrip_and_tweak_separation 7 0 1 2 (List.replicate 512 0)
    (by rw [List.length_replicate]; rfl) (by norm_num) (by norm_num) (by norm_num)

/-- Claim C6: the constant governing the cipher engine's fixed-size
scratch buffer, `CRYPT_BUF_LEN` in the driver interface (`nandio.h` line
12), equals 64. -/
theorem crypt_buf_len_eq_64 : CRYPT_BUF_LEN = 64 := rfl

/-- Claim C7: `NAND_DEVICENAME` (`nandio.h` line 13) equals the four
ASCII characters N, A, N, D packed into one 32-bit word. -/
theorem nand_devicename_is_ascii_nand :
    NAND_DEVICENAME = 78 * 2 ^ 24 + 65 * 2 ^ 16 + 78 * 2 ^ 8 + 68 ∧
      NAND_DEVICENAME = 0x4E414E44 := by
  constructor <;> decide

end Nandio

namespace Nandio

/-- Claim C1: while the write-protection gate is `Locked`, every call to
`writeSectors` and to the table-repair operation `nandio_force_fat_fix`
returns the `writeProtected` error and leaves the driver state (gate,
medium and all) unmodified, while `readSectors` remains available and
returns exactly what it returns in the `Unlocked` state. -/
theorem locked_gate_fails_closed (st : NandState) (h : st.gate = Gate.locked)
    (start count : Nat) (data : List Nat) :
    writeSectors st start count data = (some NandError.writeProtected, st) ∧
      nandio_force_fat_fix st = (some NandError.writeProtected, st) ∧
      readSectors st start count =
        readSectors { st with gate := Gate.unlocked } start count := by
  refine ⟨?_, ?_, ?_⟩
  · simp [writeSectors, h]
  · simp [nandio_force_fat_fix, h]
  · rfl

/-- Witness for claim C1 on a concrete locked state. -/
theorem locked_gate_fails_closed_witness :
    testLockedState.gate = Gate.locked ∧
      writeSectors testLockedState 0 1 [] = (some NandError.writeProtected, testLockedState) ∧
      nandio_force_fat_fix testLockedState = (some NandError.writeProtected, testLockedState) ∧
      readSectors testLockedState 0 1 =
        readSectors { testLockedState with gate := Gate.unlocked } 0 1 :=
  ⟨rfl, locked_gate_fails_closed testLockedState rfl 0 1 []⟩

end Nandio

namespace App

/-- Claim C8: the cross-processor exit-signal handler and the battery
handler mutate only the flags `programEnd`, `arm7Exiting`,
`batteryLevel` and `charging`; for every input value they leave the
driver state unchanged (they call no `nandio_*` operation). -/
theorem handlers_leave_driver_untouched (v : Nat) (st : AppState) :
    (fifoUser01Handler v st).driver = st.driver ∧
      (fifoUser01Handler v st).charging = st.charging ∧
      (fifoUser01Handler v st).batteryLevel = st.batteryLevel ∧
      (fifoUser03Handler v st).driver = st.driver ∧
      (fifoUser03Handler v st).programEnd = st.programEnd ∧
      (fifoUser03Handler v st).arm7Exiting = st.arm7Exiting := by
  refine ⟨?_, ?_, ?_, rfl, rfl, rfl⟩ <;>
    · by_cases hv : v = 0x54495845 <;> simp [fifoUser01Handler, hv]

end App

namespace Nandio

theorem list_getD_set_self (l : List (List Nat)) (i : Nat) (v : List Nat)
    (h : i < l.length) :
    (l.set i v).getD i [] = v := by
  rw [List.getD_eq_getElem?_getD, List.getElem?_set_eq_of_lt v h]
  rfl

theorem list_getD_set_other (l : List (List Nat)) (i j : Nat) (v : List Nat)
    (h : i ≠ j) :
    (l.set i v).getD j [] = l.getD j [] := by
  rw [List.getD_eq_getElem?_getD, List.getD_eq_getElem?_getD, List.getElem?_set_ne h]

theorem syncLoop_length (m : List (List Nat)) (j : Nat) :
    (Nandio.syncLoop m j).length = m.length := by
  induction j generalizing m with
  | zero => rfl
  | succ k ih => simp [Nandio.syncLoop, ih]

theorem syncLoop_getD_low (m : List (List Nat)) (j idx : Nat)
    (h : idx < Nandio.fatBackupStart) :
    (Nandio.syncLoop m j).getD idx [] = m.getD idx [] := by
  induction j generalizing m with
  | zero => rfl
  | succ k ih =>
      rw [Nandio.syncLoop, ih]
      exact list_getD_set_other m (Nandio.fatBackupStart + k) idx _ (by omega)

theorem syncLoop_getD_high (m : List (List Nat)) (j idx : Nat)
    (h : Nandio.fatBackupStart + j ≤ idx) :
    (Nandio.syncLoop m j).getD idx [] = m.getD idx [] := by
  induction j generalizing m with
  | zero => rfl
  | succ k ih =>
      rw [Nandio.syncLoop, ih _ (by omega)]
      exact list_getD_set_other m (Nandio.fatBackupStart + k) idx _ (by omega)

theorem syncLoop_getD_backup (m : List (List Nat)) (j j' : Nat)
    (hj : j' < j) (hlen : Nandio.fatBackupStart + j' < m.length) :
    (Nandio.syncLoop m j).getD (Nandio.fatBackupStart + j') [] =
      transform deviceKey (Nandio.fatBackupStart + j')
        (transform deviceKey (Nandio.fatPrimaryStart + j')
          (m.getD (Nandio.fatPrimaryStart + j') [])) := by
  induction j generalizing m with
  | zero => omega
  | succ k ih =>
      rw [Nandio.syncLoop]
      by_cases hcase : j' = k
      · subst hcase
        rw [syncLoop_getD_high _ j' _ (by omega)]
        exact list_getD_set_self m (Nandio.fatBackupStart + j') _ hlen
      · have hj'k : j' < k := by omega
        rw [ih _ hj'k (by simpa using hlen),
          list_getD_set_other m (Nandio.fatBackupStart + k)
            (Nandio.fatPrimaryStart + j') _ (by
              have : Nandio.fatPrimaryStart + j' < Nandio.fatBackupStart + k := by
                have h1 : Nandio.fatPrimaryStart < Nandio.fatBackupStart := by decide
                omega
              omega)]

theorem writeLoop_length (m : List (List Nat)) (start count : Nat)
    (data : List Nat) :
    (Nandio.writeLoop m start count data).length = m.length := by
  induction count generalizing m start data with
  | zero => rfl
  | succ c ih => simp [Nandio.writeLoop, ih]

theorem readLoop_two (m : List (List Nat)) (s : Nat) :
    readLoop m s 2 =
      transform deviceKey s (m.getD s []) ++
        (transform deviceKey (s + 1) (m.getD (s + 1) []) ++ []) := rfl

/-- Reading back the two table regions of a freshly synchronized medium
yields identical plaintext. -/
theorem sync_regions_agree (m1 : List (List Nat))
    (hl : Nandio.fatBackupStart + 1 < m1.length) :
    readLoop (Nandio.syncLoop m1 fatSectors) fatPrimaryStart fatSectors =
      readLoop (Nandio.syncLoop m1 fatSectors) fatBackupStart fatSectors := by
  have ep : readLoop (Nandio.syncLoop m1 fatSectors) fatPrimaryStart fatSectors =
      transform deviceKey fatPrimaryStart
          ((Nandio.syncLoop m1 fatSectors).getD fatPrimaryStart []) ++
        (transform deviceKey (fatPrimaryStart + 1)
          ((Nandio.syncLoop m1 fatSectors).getD (fatPrimaryStart + 1) []) ++ []) := rfl
  have eb : readLoop (Nandio.syncLoop m1 fatSectors) fatBackupStart fatSectors =
      transform deviceKey fatBackupStart
          ((Nandio.syncLoop m1 fatSectors).getD fatBackupStart []) ++
        (transform deviceKey (fatBackupStart + 1)
          ((Nandio.syncLoop m1 fatSectors).getD (fatBackupStart + 1) []) ++ []) := rfl
  have g1 : (Nandio.syncLoop m1 fatSectors).getD fatPrimaryStart [] =
      m1.getD fatPrimaryStart [] :=
    syncLoop_getD_low m1 fatSectors fatPrimaryStart (by decide)
  have g2 : (Nandio.syncLoop m1 fatSectors).getD (fatPrimaryStart + 1) [] =
      m1.getD (fatPrimaryStart + 1) [] :=
    syncLoop_getD_low m1 fatSectors (fatPrimaryStart + 1) (by decide)
  have g3 : (Nandio.syncLoop m1 fatSectors).getD fatBackupStart [] =
      transform deviceKey fatBackupStart
        (transform deviceKey fatPrimaryStart (m1.getD fatPrimaryStart [])) := by
    have := syncLoop_getD_backup m1 fatSectors 0 (by decide) (by omega)
    simpa using this
  have g4 : (Nandio.syncLoop m1 fatSectors).getD (fatBackupStart + 1) [] =
      transform deviceKey (fatBackupStart + 1)
        (transform deviceKey (fatPrimaryStart + 1)
          (m1.getD (fatPrimaryStart + 1) [])) :=
    syncLoop_getD_backup m1 fatSectors 1 (by decide) hl
  rw [ep, eb, g1, g2, g3, g4, transform_involutive, transform_involutive]

end Nandio

namespace Nandio

/-- Claim C2: after every successful `writeSectors` call whose sector
range intersects the allocation-table region, the primary and backup
table copies are bit-identical: reading both regions back through
`readSectors` yields identical plaintext. -/
theorem fat_copies_identical_after_write (st : NandState) (start count : Nat)
    (data : List Nat) (hmed : st.medium.length = numSectors)
    (hok : (writeSectors st start count data).1 = none)
    (htouch : touchesFat start count = true) :
    readSectors (writeSectors st start count data).2 fatPrimaryStart fatSectors =
      readSectors (writeSectors st start count data).2 fatBackupStart fatSectors := by
  by_cases hg : st.gate = Gate.locked
  · simp [writeSectors, hg] at hok
  by_cases hr : numSectors < start + count
  · simp [writeSectors, hg, hr] at hok
  by_cases hd : data.length ≠ count * SECTOR_SIZE
  · simp [writeSectors, hg, hr, hd] at hok
  have hw : writeSectors st start count data =
      (none, nandio_synchronize_fats
        { st with medium := writeLoop st.medium start count data }) := by
    simp [writeSectors, hg, hr, hd, htouch]
  rw [hw]
  have hlen1 : fatBackupStart + 1 < (writeLoop st.medium start count data).length := by
    rw [writeLoop_length, hmed]; decide
  have hp : fatPrimaryStart + fatSectors ≤ numSectors := by decide
  have hb : fatBackupStart + fatSectors ≤ numSectors := by decide
  show readSectors (nandio_synchronize_fats
      { st with medium := writeLoop st.medium start count data }) fatPrimaryStart fatSectors =
    readSectors (nandio_synchronize_fats
      { st with medium := writeLoop st.medium start count data }) fatBackupStart fatSectors
  unfold readSectors nandio_synchronize_fats
  rw [if_pos hp, if_pos hb]
  exact congrArg some (sync_regions_agree _ hlen1)

set_option maxRecDepth 100000 in
/-- Witness for claim C2: a concrete unlocked state and a one-sector
write into the table region. -/
theorem fat_copies_identical_after_write_witness :
    testUnlockedState.medium.length = numSectors ∧
      (writeSectors testUnlockedState 1 1 (List.replicate 512 3)).1 = none ∧
      touchesFat 1 1 = true ∧
      readSectors (writeSectors testUnlockedState 1 1 (List.replicate 512 3)).2
          fatPrimaryStart fatSectors =
        readSectors (writeSectors testUnlockedState 1 1 (List.replicate 512 3)).2
          fatBackupStart fatSectors :=
  ⟨by decide, by decide, by decide,
    fat_copies_identical_after_write testUnlockedState 1 1 (List.replicate 512 3)
      (by decide) (by decide) (by decide)⟩

end Nandio

namespace App

theorem checkTmd_some (env : Env) (buf : List Nat) (good : Bool)
    (h : checkTmdAndReadBuffer env = some (buf, good)) :
    ∃ expected target src,
      env.expectedSha = some expected ∧ env.targetTmd = some target ∧
      env.sourceTmd = some src ∧ 520 ≤ src.length ∧ buf = src.take 520 ∧
      sha1M (src.take 520) = expected ∧
      (good = true ↔ sha1M target = expected) := by
  unfold checkTmdAndReadBuffer at h
  rcases he : env.expectedSha with _ | expected <;> rw [he] at h
  · exact absurd h (by simp)
  rcases ht : env.targetTmd with _ | target <;> rw [ht] at h
  · exact absurd h (by simp)
  rcases hs : env.sourceTmd with _ | src <;> rw [hs] at h
  · exact absurd h (by simp)
  dsimp only at h
  by_cases hl : src.length < 520
  · rw [if_pos hl] at h
    exact absurd h (by simp)
  rw [if_neg hl] at h
  by_cases hm : sha1M (src.take 520) ≠ expected
  · rw [if_pos hm] at h
    exact absurd h (by simp)
  rw [if_neg hm] at h
  push_neg at hm
  simp only [Option.some.injEq, Prod.mk.injEq] at h
  refine ⟨expected, target, src, rfl, rfl, rfl, by omega, h.1.symm, hm, ?_⟩
  rw [← h.2]
  simp

theorem runMain_shapes (env : Env) :
    (∃ buf good,
        checkTmdAndReadBuffer env = some (buf, good) ∧ good = false ∧
        env.userConfirms = true ∧ env.unlockOk = true ∧ env.toggleTmdOk = true ∧
        env.toggleAppOk = true ∧ env.truncateOk = true ∧ env.writeOk = true ∧
        runMain env =
          ⟨[Event.unlockWriting true, Event.truncate 520, Event.nandWrite buf,
              Event.shutdown], Outcome.done, some buf⟩) ∨
      ((runMain env).outcome ≠ Outcome.done ∧
        ∀ d, Event.nandWrite d ∉ (runMain env).trace) := by
  unfold runMain runRestore
  cases h1 : env.earlyOk1
  · right; simp
  cases h2 : env.batteryDeclined
  case true => right; simp
  cases h3 : env.earlyOk2
  · right; simp
  cases hc : checkTmdAndReadBuffer env
  · right; simp
  rename_i pr
  obtain ⟨buf, good⟩ := pr
  cases hg : good
  case true => right; simp
  cases h4 : env.userConfirms
  · right; simp
  cases h5 : env.unlockOk
  · right; simp
  cases h6 : env.toggleTmdOk
  · right; simp
  cases h7 : env.toggleAppOk
  · right; simp
  cases h8 : env.truncateOk
  · right; simp
  cases h9 : env.writeOk
  · right; simp
  left
  exact ⟨buf, false, rfl, rfl, rfl, rfl, rfl, rfl, rfl, rfl, rfl⟩

end App

namespace App

/-- Claim C4: the recovery program writes the launcher tmd only after
integrity verification succeeded: every `fwrite` of the 520-byte source
buffer into the target tmd happens with a buffer whose SHA-1 digest
equals the expected digest loaded from the known-good copy's `.sha1`
file, and a digest mismatch of the source buffer aborts the run before
any NAND write. -/
theorem write_only_after_digest_verified (env : Env) :
    (∀ d, Event.nandWrite d ∈ (runMain env).trace →
      ∃ e, env.expectedSha = some e ∧ sha1M d = e) ∧
    (∀ src e, env.sourceTmd = some src → env.expectedSha = some e →
      sha1M (src.take 520) ≠ e → ∀ d, Event.nandWrite d ∉ (runMain env).trace) := by
  constructor
  · intro d hd
    rcases runMain_shapes env with ⟨buf, good, hc, _, _, _, _, _, _, _, heq⟩ | ⟨_, hno⟩
    · obtain ⟨expected, target, src, he, ht, hs, hl, hbuf, hsha, _⟩ :=
        checkTmd_some env buf good hc
      rw [heq] at hd
      simp at hd
      exact ⟨expected, he, by rw [hd, hbuf]; exact hsha⟩
    · exact absurd hd (hno d)
  · intro src e hsrc he hne d hd
    rcases runMain_shapes env with ⟨buf, good, hc, _, _, _, _, _, _, _, _⟩ | ⟨_, hno⟩
    · obtain ⟨expected, target, src', he', ht', hs', _, _, hsha, _⟩ :=
        checkTmd_some env buf good hc
      rw [hsrc] at hs'
      rw [he] at he'
      have h1 : src' = src := by injection hs' with h'; exact h'.symm
      have h2 : expected = e := by injection he' with h'; exact h'.symm
      rw [h1, h2] at hsha
      exact absurd hsha hne
    · exact hno d hd

set_option maxRecDepth 100000 in
/-- Witness for claim C4: in the all-success environment the written
buffer's digest equals the expected digest, and in an environment whose
expected digest matches nothing, no write occurs. -/
theorem write_only_after_digest_verified_witness :
    (∃ e, envHappy.expectedSha = some e ∧ sha1M (goodSrc.take 520) = e) ∧
      Event.nandWrite staleTarget ∉ (runMain envMismatch).trace :=
  ⟨(write_only_after_digest_verified envHappy).1 (goodSrc.take 520) (by decide),
    (write_only_after_digest_verified envMismatch).2 goodSrc 0 rfl rfl
      (by decide) staleTarget⟩

set_option maxRecDepth 100000 in
/-- Counterexample to claim C5 as stated: in a run that performs its
single NAND write, `nandio_lock_writing` is never called — `main.cpp`
contains no call to it; after the write, `cleanup` calls
`nandio_shutdown` instead. -/
theorem lock_writing_never_called_after_write :
    (runMain envHappy).outcome = Outcome.done ∧
      Event.nandWrite (goodSrc.take 520) ∈ (runMain envHappy).trace ∧
      Event.lockWriting ∉ (runMain envHappy).trace := by decide

/-- Claim C5 (amended): in every execution that performs the NAND write,
`nandio_unlock_writing` is called and succeeds before the write, and
after the write completes the gate is forced back to `Locked` by
`nandio_shutdown` (called from `cleanup`), not by `nandio_lock_writing`. -/
theorem unlock_before_write_shutdown_after (env : Env) (d : List Nat)
    (h : Event.nandWrite d ∈ (runMain env).trace) :
    env.unlockOk = true ∧
      ∃ l1 l2 l3, (runMain env).trace =
        l1 ++ Event.unlockWriting true ::
          (l2 ++ Event.nandWrite d :: (l3 ++ [Event.shutdown])) := by
  rcases runMain_shapes env with ⟨buf, good, hc, _, _, hunlock, _, _, _, _, heq⟩ | ⟨_, hno⟩
  · rw [heq] at h ⊢
    simp at h
    exact ⟨hunlock, [], [Event.truncate 520], [], by simp [h]⟩
  · exact absurd h (hno d)

set_option maxRecDepth 100000 in
/-- Witness for the amended claim C5 in the all-success environment. -/
theorem unlock_before_write_shutdown_after_witness :
    envHappy.unlockOk = true ∧
      ∃ l1 l2 l3, (runMain envHappy).trace =
        l1 ++ Event.unlockWriting true ::
          (l2 ++ Event.nandWrite (goodSrc.take 520) :: (l3 ++ [Event.shutdown])) :=
  unlock_before_write_shutdown_after envHappy (goodSrc.take 520) (by decide)

end App

namespace App

/-- Claim C9: when the target tmd's computed digest already equals the
expected digest of the known-good copy, the run exits reporting that no
action is needed, never calls `nandio_unlock_writing`, performs no
truncation and no NAND write, and leaves the target tmd unchanged. -/
theorem already_correct_no_action (env : Env) (e : Nat) (target src : List Nat)
    (h1 : env.earlyOk1 = true) (h2 : env.batteryDeclined = false)
    (h3 : env.earlyOk2 = true) (he : env.expectedSha = some e)
    (ht : env.targetTmd = some target) (hs : env.sourceTmd = some src)
    (hl : 520 ≤ src.length) (hsrc : sha1M (src.take 520) = e)
    (htgt : sha1M target = e) :
    (runMain env).outcome = Outcome.noActionNeeded ∧
      (∀ b, Event.unlockWriting b ∉ (runMain env).trace) ∧
      (∀ d, Event.nandWrite d ∉ (runMain env).trace) ∧
      (∀ n, Event.truncate n ∉ (runMain env).trace) ∧
      (runMain env).finalTarget = env.targetTmd := by
  have hc : checkTmdAndReadBuffer env = some (src.take 520, true) := by
    unfold checkTmdAndReadBuffer
    rw [he, ht, hs]
    dsimp only
    rw [if_neg (by omega), if_neg (by simp [hsrc])]
    simp [htgt]
  unfold runMain runRestore
  rw [h1, h2, h3, hc]
  simp

set_option maxRecDepth 100000 in
/-- Witness for claim C9: an environment whose target tmd equals the
known-good source. -/
theorem already_correct_no_action_witness :
    (runMain envAlreadyGood).outcome = Outcome.noActionNeeded ∧
      (∀ b, Event.unlockWriting b ∉ (runMain envAlreadyGood).trace) ∧
      (∀ d, Event.nandWrite d ∉ (runMain envAlreadyGood).trace) ∧
      (∀ n, Event.truncate n ∉ (runMain envAlreadyGood).trace) ∧
      (runMain envAlreadyGood).finalTarget = envAlreadyGood.targetTmd :=
  already_correct_no_action envAlreadyGood (sha1M goodSrc) goodSrc goodSrc
    rfl rfl rfl rfl rfl rfl (by decide) (by decide) rfl

/-- Claim C10: on every successful restore path the source tmd was read
as exactly 520 bytes (a run whose source is shorter cannot succeed), the
target file was truncated to 520 bytes, the whole 520-byte buffer was
written, and the target tmd ends up exactly 520 bytes long with content
equal to the verified source buffer. -/
theorem successful_restore_writes_520 (env : Env)
    (h : (runMain env).outcome = Outcome.done) :
    ∃ src, env.sourceTmd = some src ∧ 520 ≤ src.length ∧
      (runMain env).finalTarget = some (src.take 520) ∧
      (src.take 520).length = 520 ∧
      Event.truncate 520 ∈ (runMain env).trace ∧
      Event.nandWrite (src.take 520) ∈ (runMain env).trace := by
  rcases runMain_shapes env with ⟨buf, good, hc, _, _, _, _, _, _, _, heq⟩ | ⟨hout, _⟩
  · obtain ⟨expected, target, src, he, ht, hs, hl, hbuf, _, _⟩ :=
      checkTmd_some env buf good hc
    refine ⟨src, hs, hl, ?_, ?_, ?_, ?_⟩
    · rw [heq]; simp [hbuf]
    · rw [List.length_take]; omega
    · rw [heq]; simp
    · rw [heq]; simp [hbuf]
  · exact absurd h hout

set_option maxRecDepth 100000 in
/-- Witness for claim C10 in the all-success environment. -/
theorem successful_restore_writes_520_witness :
    (runMain envHappy).outcome = Outcome.done ∧
      ∃ src, envHappy.sourceTmd = some src ∧ 520 ≤ src.length ∧
        (runMain envHappy).finalTarget = some (src.take 520) ∧
        (src.take 520).length = 520 ∧
        Event.truncate 520 ∈ (runMain envHappy).trace ∧
        Event.nandWrite (src.take 520) ∈ (runMain envHappy).trace :=
  ⟨by decide, successful_restore_writes_520 envHappy (by decide)⟩

end App
